import Mathlib

/-!
Verification of the ZeroneDeckStuff terminal dashboard.

This file is a shallow embedding of `src/main.py`: a curses TUI application
composed of a clock, a CPU monitor, a memory monitor and an exit button,
with a foreground run loop (render + input dispatch) and a background
sampler thread that refreshes widget state.  Machine integers of the source
are modelled as `Int`/`Nat`, the percent values sampled from the metrics
provider as `ℚ`, and calls that can raise as `Except Unit`.
-/

namespace ZeroneDeck

/-- Value of the curses constant BUTTON1_CLICKED, the primary-click bit of a
mouse event's button mask. -/
def BUTTON1_CLICKED : Nat := 4

/-- Python expression ord of the quit key, the character q. -/
def ordQ : Nat := 113

/-- Bounding box carried by every widget (Widget.__init__, main.py 96-101). -/
structure BoundingBox where
  x : Int
  y : Int
  width : Int
  height : Int
deriving DecidableEq, Repr

/-- Hit test Widget.is_inside (main.py 103-105): the chained comparisons
self.x <= mx < self.x + self.width and self.y <= my < self.y + self.height. -/
def is_inside (b : BoundingBox) (mx my : Int) : Bool :=
  (decide (b.x ≤ mx) && decide (mx < b.x + b.width)) &&
  (decide (b.y ≤ my) && decide (my < b.y + b.height))

/-- The callback value a ButtonWidget is constructed with; in init_widgets the
only callback ever passed is self.quit (main.py 38). -/
inductive AppAction where
  | quit
deriving DecidableEq, Repr

/-- Variant-specific display state of each widget class of main.py:
ClockWidget.time, CpuMonitorWidget.cpu_percent, MemoryWidget's three fields,
and ButtonWidget's label, callback and pressed flag. -/
inductive WState where
  | clock (time : String)
  | cpu (cpu_percent : ℚ)
  | memory (memory_percent : ℚ) (memory_used : Nat) (memory_total : Nat)
  | button (label : String) (callback : AppAction) (pressed : Bool)
deriving DecidableEq, Repr

/-- A widget: its bounding box together with its variant state. -/
structure Widget where
  box : BoundingBox
  st : WState
deriving DecidableEq, Repr

/-- Click handler: the base Widget.on_click (main.py 124-125) is a no-op;
ButtonWidget.on_click (main.py 222-224) sets pressed to True and invokes the
callback.  Returns the updated widget and the list of callbacks invoked. -/
def on_click : Widget → Widget × List AppAction
  | ⟨b, .button l c _⟩ => (⟨b, .button l c true⟩, [c])
  | w => (w, [])

/-- State of TuiApp (main.py 8-29): the running flag, last-known mouse
position, last-known terminal size, and the widget sequence. -/
structure AppState where
  running : Bool
  mouse_x : Int
  mouse_y : Int
  height : Int
  width : Int
  widgets : List Widget
deriving DecidableEq, Repr

/-- TuiApp.quit (main.py 71-72): sets running to False. -/
def quit (s : AppState) : AppState := { s with running := false }

/-- Effect of invoking one Button callback on the application: the only
callback in this program is TuiApp.quit. -/
def applyAction (s : AppState) : AppAction → AppState
  | .quit => quit s

/-- Body of the click-dispatch loop of TuiApp.handle_mouse (main.py 67-69):
one widget's contribution, namely on_click when the hit test succeeds. -/
def clickWidget (mx my : Int) (w : Widget) : Widget × List AppAction :=
  if is_inside w.box mx my then on_click w else (w, [])

/-- TuiApp.handle_mouse (main.py 61-69): store the mouse position; when the
button mask has the primary-click bit, walk the widget sequence, calling
on_click on every widget whose hit test succeeds, and apply the invoked
callbacks to the application. -/
def handle_mouse (s : AppState) (mx my : Int) (bstate : Nat) : AppState :=
  let s1 : AppState := { s with mouse_x := mx, mouse_y := my }
  if bstate &&& BUTTON1_CLICKED ≠ 0 then
    let rs := s1.widgets.map (clickWidget mx my)
    ((rs.map Prod.snd).flatten).foldl applyAction { s1 with widgets := rs.map Prod.fst }
  else s1

/-- The input events TuiApp.run can observe in one iteration (main.py 78-93):
a key press, a decoded mouse event, a terminal resize, the 100 ms poll timing
out, or a keyboard interrupt. -/
inductive InputEvent where
  | key (code : Nat)
  | mouse (mx my : Int) (bstate : Nat)
  | resize (rows cols : Int)
  | timeout
  | interrupt
deriving DecidableEq, Repr

/-- Input handling of one iteration of TuiApp.run (main.py 78-93): q quits,
a mouse event goes to handle_mouse, a resize stores the new size, a timeout
does nothing, a keyboard interrupt quits. -/
def step (s : AppState) : InputEvent → AppState
  | .key c => if c = ordQ then quit s else s
  | .mouse mx my b => handle_mouse s mx my b
  | .resize r c => { s with height := r, width := c }
  | .timeout => s
  | .interrupt => quit s

/-- TuiApp.run (main.py 74-93) over a finite stream of input events: while
running, each iteration first draws the current state (line 76) and then
handles one input event (lines 78-93).  Returns the final state and the
number of loop iterations executed. -/
def run : AppState → List InputEvent → AppState × Nat
  | s, [] => (s, 0)
  | s, e :: es =>
    if s.running then
      let r := run (step s e) es
      (r.1, r.2 + 1)
    else (s, 0)

/-- The two phases of one iteration of the foreground loop. -/
inductive Phase where
  | render
  | input
deriving DecidableEq, Repr

/-- Phase log of TuiApp.run: every executed iteration performs self.draw()
(line 76) first and input handling (lines 78-93) second. -/
def runPhases : AppState → List InputEvent → List Phase
  | _, [] => []
  | s, e :: es =>
    if s.running then Phase.render :: Phase.input :: runPhases (step s e) es
    else []

/-- The application state rendered by self.draw() in each executed iteration
of TuiApp.run: the draw of an iteration happens before that iteration's
input event is handled. -/
def frames : AppState → List InputEvent → List AppState
  | _, [] => []
  | s, e :: es => if s.running then s :: frames (step s e) es else []

/-- Python int function applied to an exact numeric value: truncation toward
zero. -/
def pyInt (q : ℚ) : Int := if 0 ≤ q then ⌊q⌋ else ⌈q⌉

/-- Inner bar width bar_width = self.width - 6 of CpuMonitorWidget.draw and
MemoryWidget.draw (main.py 155, 186). -/
def barWidth (width : Int) : Int := width - 6

/-- Filled-cell count filled = int(bar_width * percent / 100)
(main.py 156, 187). -/
def filledCells (width : Int) (percent : ℚ) : Int :=
  pyInt ((barWidth width : ℚ) * percent / 100)

/-- Empty-cell count bar_width - filled of the bar (main.py 158, 190). -/
def emptyCells (width : Int) (percent : ℚ) : Int :=
  barWidth width - filledCells width percent

/-- The bar string built at main.py 158 and 190: a full-block character
repeated filled times followed by a light-shade character repeated
bar_width - filled times; Python string repetition with a non-positive
count yields the empty string, modelled by Int.toNat. -/
def barString (width : Int) (percent : ℚ) : String :=
  String.mk (List.replicate (filledCells width percent).toNat '█' ++
             List.replicate (emptyCells width percent).toNat '░')

/-- Colour choice for the bar (main.py 160-163 and 192-195): curses colour
pair 3 (green, the normal colour) when percent < 70, colour pair 4 (red, the
alert colour) otherwise. -/
def barColorPair (percent : ℚ) : Nat := if percent < 70 then 3 else 4

/-- External collaborators of one Sampler tick: the formatted wall-clock text
read by ClockWidget.update, and the two psutil calls, which can raise when
the metrics provider is unavailable. -/
structure Env where
  now : String
  cpuSample : Except Unit ℚ
  memSample : Except Unit (ℚ × Nat × Nat)

/-- The update method of each widget variant (main.py 121-122, 134-135,
148-149, 176-180): the clock stores the current time text; the CPU monitor
stores the sampled percent; the memory widget stores the sampled percent and
the used and total byte counts floor-divided by 1024 * 1024; a button
inherits the base no-op.  A raising provider call is an error result. -/
def widgetUpdate (env : Env) : Widget → Except Unit Widget
  | ⟨b, .clock _⟩ => .ok ⟨b, .clock env.now⟩
  | ⟨b, .cpu _⟩ => do
      let p ← env.cpuSample
      .ok ⟨b, .cpu p⟩
  | ⟨b, .memory _ _ _⟩ => do
      let m ← env.memSample
      .ok ⟨b, .memory m.1 (m.2.1 / (1024 * 1024)) (m.2.2 / (1024 * 1024))⟩
  | w => .ok w

/-- One tick of TuiApp.update_widgets (main.py 40-44): update is called on
every widget in sequence order with no exception handling, so a raise aborts
the tick at that widget: the failing widget and every later widget keep their
previous state, and the Boolean flag records that the exception escaped the
loop, killing the sampler thread. -/
def update_widgets_tick (env : Env) : List Widget → List Widget × Bool
  | [] => ([], false)
  | w :: ws =>
    match widgetUpdate env w with
    | .error _ => (w :: ws, true)
    | .ok w2 =>
      let r := update_widgets_tick env ws
      (w2 :: r.1, r.2)

/-- The Sampler across successive ticks, one environment per tick: once a
tick raises, the daemon thread is dead and no further tick runs. -/
def sampler : List Env → List Widget → List Widget × Bool
  | [], ws => (ws, false)
  | env :: envs, ws =>
    let r := update_widgets_tick env ws
    if r.2 then (r.1, true) else sampler envs r.1

/-- Bounds behaviour of the curses addstr primitive: writing at a position
outside the window raises curses.error, modelled as an error result. -/
def addstr (rows cols row col : Int) : Except Unit Unit :=
  if 0 ≤ row ∧ row < rows ∧ 0 ≤ col ∧ col < cols then .ok () else .error ()

/-- The cursor-marker write of TuiApp.draw (main.py 54):
self.stdscr.addstr(self.mouse_y, self.mouse_x, X, reverse attribute), with no
clipping and no exception handler; self.draw() is invoked outside the try
block of run (line 76), so an error raised here propagates out of the loop. -/
def drawCursorMarker (s : AppState) : Except Unit Unit :=
  addstr s.height s.width s.mouse_y s.mouse_x

/-- TuiApp.__init__ together with init_widgets (main.py 8-38): running is
True, the mouse starts at the origin, the terminal size comes from getmaxyx,
and the widget sequence is the clock at (1,1) 20x3, the CPU monitor at (1,5)
20x5, the memory widget at (23,5) 20x5 and the Exit button at (23,1) 20x3
whose callback is self.quit.  The parameter t0 is the wall-clock text the
clock computes in its constructor. -/
def mkApp (rows cols : Int) (t0 : String) : AppState :=
  { running := true, mouse_x := 0, mouse_y := 0, height := rows, width := cols,
    widgets :=
      [ ⟨⟨1, 1, 20, 3⟩, .clock t0⟩,
        ⟨⟨1, 5, 20, 5⟩, .cpu 0⟩,
        ⟨⟨23, 5, 20, 5⟩, .memory 0 0 0⟩,
        ⟨⟨23, 1, 20, 3⟩, .button "Exit" .quit false⟩ ] }

/-! ## Helper lemmas -/

theorem pyInt_of_nonneg (q : ℚ) (h : 0 ≤ q) : pyInt q = ⌊q⌋ := if_pos h

theorem filledCells_eq_floor (w : Int) (p : ℚ) (hw : 6 ≤ w) (hp : 0 ≤ p) :
    filledCells w p = ⌊((w : ℚ) - 6) * p / 100⌋ := by
  have hcast : ((barWidth w : Int) : ℚ) = (w : ℚ) - 6 := by
    unfold barWidth
    push_cast
    ring
  unfold filledCells
  rw [hcast, pyInt_of_nonneg]
  have hw6 : (0 : ℚ) ≤ (w : ℚ) - 6 := by
    have : (6 : ℚ) ≤ (w : ℚ) := by exact_mod_cast hw
    linarith
  exact div_nonneg (mul_nonneg hw6 hp) (by norm_num)

theorem filledCells_nonneg (w : Int) (p : ℚ) (hw : 6 ≤ w) (hp : 0 ≤ p) :
    0 ≤ filledCells w p := by
  rw [filledCells_eq_floor w p hw hp]
  have hw6 : (0 : ℚ) ≤ (w : ℚ) - 6 := by
    have : (6 : ℚ) ≤ (w : ℚ) := by exact_mod_cast hw
    linarith
  exact Int.floor_nonneg.mpr (div_nonneg (mul_nonneg hw6 hp) (by norm_num))

theorem filledCells_le (w : Int) (p : ℚ) (hw : 6 ≤ w) (hp0 : 0 ≤ p)
    (hp1 : p ≤ 100) : filledCells w p ≤ w - 6 := by
  rw [filledCells_eq_floor w p hw hp0]
  have hw6 : (0 : ℚ) ≤ (w : ℚ) - 6 := by
    have : (6 : ℚ) ≤ (w : ℚ) := by exact_mod_cast hw
    linarith
  have h1 : ((w : ℚ) - 6) * p / 100 ≤ (w : ℚ) - 6 := by
    rw [div_le_iff₀ (by norm_num : (0 : ℚ) < 100)]
    nlinarith
  have h2 : ⌊((w : ℚ) - 6) * p / 100⌋ ≤ ⌊(w : ℚ) - 6⌋ := Int.floor_le_floor h1
  have h3 : ⌊(w : ℚ) - 6⌋ = w - 6 := by
    rw [show ((w : ℚ) - 6) = ((w - 6 : Int) : ℚ) by push_cast; ring]
    exact Int.floor_intCast _
  omega

theorem filledCells_mono (w : Int) (p q : ℚ) (hw : 6 ≤ w) (hp0 : 0 ≤ p)
    (hpq : p ≤ q) : filledCells w p ≤ filledCells w q := by
  rw [filledCells_eq_floor w p hw hp0, filledCells_eq_floor w q hw (le_trans hp0 hpq)]
  apply Int.floor_le_floor
  have hw6 : (0 : ℚ) ≤ (w : ℚ) - 6 := by
    have h6 : (6 : ℚ) ≤ (w : ℚ) := by exact_mod_cast hw
    linarith
  have := mul_le_mul_of_nonneg_left hpq hw6
  exact div_le_div_of_nonneg_right this (by norm_num) |>.trans_eq rfl

theorem foldl_applyAction_widgets (acts : List AppAction) (t : AppState) :
    (acts.foldl applyAction t).widgets = t.widgets := by
  induction acts generalizing t with
  | nil => rfl
  | cons a as ih =>
    cases a
    rw [List.foldl_cons, ih]
    rfl

theorem foldl_applyAction_running (acts : List AppAction) (t : AppState) :
    (acts.foldl applyAction t).running = (t.running && acts.isEmpty) := by
  induction acts generalizing t with
  | nil => simp
  | cons a as ih =>
    cases a
    rw [List.foldl_cons, ih]
    simp [applyAction, quit]

theorem clickActions_eq (l : List Widget) (mx my : Int) :
    ((l.map (clickWidget mx my)).map Prod.snd).flatten =
      ((l.filter (fun w => is_inside w.box mx my)).map
        (fun w => (on_click w).2)).flatten := by
  induction l with
  | nil => rfl
  | cons w ws ih =>
    rw [List.map_map] at ih
    cases hI : is_inside w.box mx my with
    | false => simp [clickWidget, hI, ih]
    | true => simp [clickWidget, hI, ih]

theorem step_preserves_stopped (s : AppState) (e : InputEvent)
    (h : s.running = false) : (step s e).running = false := by
  cases e with
  | key c =>
    by_cases hc : c = ordQ
    · simp [step, hc, quit]
    · simp [step, hc, h]
  | mouse mx my b =>
    simp only [step, handle_mouse]
    split
    · rw [foldl_applyAction_running]
      simp [h]
    · exact h
  | resize r c => exact h
  | timeout => exact h
  | interrupt => simp [step, quit]

theorem run_stopped (s : AppState) (evs : List InputEvent)
    (h : s.running = false) : run s evs = (s, 0) := by
  cases evs with
  | nil => rfl
  | cons e es => simp [run, h]

theorem runPhases_count_render (s : AppState) (evs : List InputEvent) :
    (runPhases s evs).count Phase.render = (run s evs).2 := by
  induction evs generalizing s with
  | nil => rfl
  | cons e es ih =>
    cases hr : s.running
    · simp [runPhases, run, hr]
    · simp [runPhases, run, hr, ih, List.count_cons]

/-! ## Claims -/

/-- Claim C1: for every widget bounding box and point, is_inside is true iff
x ≤ px < x + width and y ≤ py < y + height; in particular it is false for
points exactly on the right edge (px = x + width) or the bottom edge
(py = y + height). -/
theorem C1_is_inside_halfopen (b : BoundingBox) (px py : Int) :
    (is_inside b px py = true ↔
      b.x ≤ px ∧ px < b.x + b.width ∧ b.y ≤ py ∧ py < b.y + b.height) ∧
    is_inside b (b.x + b.width) py = false ∧
    is_inside b px (b.y + b.height) = false := by
  refine ⟨?_, ?_, ?_⟩ <;> (simp [is_inside]; try omega)

/-- Claim C6: the CPU and Memory bars are drawn with the alert colour (curses
colour pair 4, red) iff percent ≥ 70, and with the normal colour (pair 3,
green) otherwise; the threshold is inclusive on the alert side, so 70 itself
is alert while 69.999 is normal. -/
theorem C6_alert_threshold (p : ℚ) :
    (barColorPair p = 4 ↔ 70 ≤ p) ∧
    (barColorPair p = 3 ↔ p < 70) ∧
    barColorPair 70 = 4 ∧
    barColorPair (69999 / 1000) = 3 := by
  refine ⟨?_, ?_, ?_, ?_⟩
  · by_cases h : p < 70
    · simp only [barColorPair, if_pos h]
      constructor
      · intro h34
        exact absurd h34 (by norm_num)
      · intro hle
        exact absurd hle (not_le.mpr h)
    · simp only [barColorPair, if_neg h]
      simp [not_lt.mp h]
  · by_cases h : p < 70
    · simp [barColorPair, h]
    · simp only [barColorPair, if_neg h]
      constructor
      · intro h43
        exact absurd h43 (by norm_num)
      · intro hlt
        exact absurd hlt h
  · simp only [barColorPair, if_neg (by norm_num : ¬(70 : ℚ) < 70)]
  · simp only [barColorPair, if_pos (by norm_num : (69999 / 1000 : ℚ) < 70)]

/-- Claim C7: MemoryWidget.update converts bytes to MB by integer floor
division by 1 048 576 = 1024 * 1024 for both the used and the total field,
with no rounding up (the floor characterization below), and 1 572 864 000
bytes convert to exactly 1500 MB. -/
theorem C7_bytes_to_mb (env : Env) (bx : BoundingBox) (p0 : ℚ) (u0 t0 : Nat)
    (p : ℚ) (u t : Nat) (h : env.memSample = Except.ok (p, u, t)) :
    widgetUpdate env ⟨bx, WState.memory p0 u0 t0⟩ =
      Except.ok ⟨bx, WState.memory p (u / (1024 * 1024)) (t / (1024 * 1024))⟩ ∧
    (u / (1024 * 1024)) * 1048576 ≤ u ∧
    u < (u / (1024 * 1024) + 1) * 1048576 ∧
    1572864000 / (1024 * 1024) = 1500 := by
  refine ⟨?_, ?_, ?_, by norm_num⟩
  · simp only [widgetUpdate, h]
    rfl
  · have h1 := Nat.div_add_mod u (1024 * 1024)
    have h2 := Nat.mod_lt u (show 0 < 1024 * 1024 by norm_num)
    omega
  · have h1 := Nat.div_add_mod u (1024 * 1024)
    have h2 := Nat.mod_lt u (show 0 < 1024 * 1024 by norm_num)
    omega

/-- Witness for C7 at a concrete sample: 1 572 864 000 used bytes and
3 145 728 000 total bytes are stored as 1500 MB and 3000 MB. -/
theorem C7_bytes_to_mb_witness :
    widgetUpdate
        { now := "n", cpuSample := Except.ok 0,
          memSample := Except.ok (50, 1572864000, 3145728000) }
        ⟨⟨23, 5, 20, 5⟩, WState.memory 0 0 0⟩ =
      Except.ok ⟨⟨23, 5, 20, 5⟩,
        WState.memory 50 (1572864000 / (1024 * 1024)) (3145728000 / (1024 * 1024))⟩ ∧
    (1572864000 / (1024 * 1024)) * 1048576 ≤ 1572864000 ∧
    1572864000 < (1572864000 / (1024 * 1024) + 1) * 1048576 ∧
    1572864000 / (1024 * 1024) = 1500 :=
  C7_bytes_to_mb
    { now := "n", cpuSample := Except.ok 0,
      memSample := Except.ok (50, 1572864000, 3145728000) }
    ⟨23, 5, 20, 5⟩ 0 0 0 50 1572864000 3145728000 rfl

/-- Claim C2: on a primary-click mouse event at (mx, my), handle_mouse invokes
on_click exactly once on each widget of the sequence whose hit test succeeds
and on no other widget: the new widget sequence replaces exactly the hit
widgets by their on_click result, the callbacks invoked are exactly those of
the hit widgets in sequence order, a button's on_click sets pressed to true
and invokes its callback exactly once; concretely, a click inside only the
Exit button presses it and fires its action once, a click outside every
widget changes no widget, and a click inside the overlap of two buttons
presses both. -/
theorem C2_click_dispatch (s : AppState) (mx my : Int) :
    ((handle_mouse s mx my BUTTON1_CLICKED).widgets =
      s.widgets.map (fun w => if is_inside w.box mx my then (on_click w).1 else w)) ∧
    (((s.widgets.map (clickWidget mx my)).map Prod.snd).flatten =
      ((s.widgets.filter (fun w => is_inside w.box mx my)).map
        (fun w => (on_click w).2)).flatten) ∧
    (∀ b l c p, on_click ⟨b, WState.button l c p⟩ = (⟨b, WState.button l c true⟩, [c])) ∧
    (handle_mouse (mkApp 24 80 "t") 30 2 BUTTON1_CLICKED =
      { running := false, mouse_x := 30, mouse_y := 2, height := 24, width := 80,
        widgets :=
          [ ⟨⟨1, 1, 20, 3⟩, .clock "t"⟩,
            ⟨⟨1, 5, 20, 5⟩, .cpu 0⟩,
            ⟨⟨23, 5, 20, 5⟩, .memory 0 0 0⟩,
            ⟨⟨23, 1, 20, 3⟩, .button "Exit" .quit true⟩ ] }) ∧
    (handle_mouse (mkApp 24 80 "t") 60 20 BUTTON1_CLICKED =
      { mkApp 24 80 "t" with mouse_x := 60, mouse_y := 20 }) ∧
    ((handle_mouse
        { running := true, mouse_x := 0, mouse_y := 0, height := 24, width := 80,
          widgets :=
            [ ⟨⟨0, 0, 4, 4⟩, .button "A" .quit false⟩,
              ⟨⟨2, 2, 4, 4⟩, .button "B" .quit false⟩ ] }
        3 3 BUTTON1_CLICKED).widgets =
      [ ⟨⟨0, 0, 4, 4⟩, .button "A" .quit true⟩,
        ⟨⟨2, 2, 4, 4⟩, .button "B" .quit true⟩ ]) := by
  refine ⟨?_, clickActions_eq s.widgets mx my, fun b l c p => rfl,
    by decide, by decide, by decide⟩
  simp only [handle_mouse]
  rw [if_pos (by decide : BUTTON1_CLICKED &&& BUTTON1_CLICKED ≠ 0)]
  rw [foldl_applyAction_widgets]
  simp only [List.map_map]
  congr 1
  funext w
  by_cases hI : is_inside w.box mx my <;> simp [clickWidget, hI]

/-- Sampler-tick environment in which the CPU metrics provider raises and the
memory provider answers normally. -/
def envCpuFail : Env :=
  { now := "12:01", cpuSample := .error (), memSample := .ok (50, 2097152, 4194304) }

/-- Sampler-tick environment in which every metrics provider answers
normally. -/
def envAllOk : Env :=
  { now := "12:02", cpuSample := .ok 25, memSample := .ok (50, 2097152, 4194304) }

/-- Claim C3 is violated by the code: update_widgets has no exception handling,
so when the CPU provider raises during a tick the exception escapes the loop.
The failing CPU widget does keep its previous value, but the memory widget is
not updated for that tick even though its provider was available, and no later
tick runs at all: a second, fully healthy tick environment leaves every widget
unchanged because the sampler thread is dead, as the Boolean crash flag
records. -/
theorem C3_update_error_not_caught :
    update_widgets_tick envCpuFail (mkApp 24 80 "12:00").widgets =
      ([ ⟨⟨1, 1, 20, 3⟩, .clock "12:01"⟩,
         ⟨⟨1, 5, 20, 5⟩, .cpu 0⟩,
         ⟨⟨23, 5, 20, 5⟩, .memory 0 0 0⟩,
         ⟨⟨23, 1, 20, 3⟩, .button "Exit" .quit false⟩ ], true) ∧
    sampler [envCpuFail, envAllOk] (mkApp 24 80 "12:00").widgets =
      ([ ⟨⟨1, 1, 20, 3⟩, .clock "12:01"⟩,
         ⟨⟨1, 5, 20, 5⟩, .cpu 0⟩,
         ⟨⟨23, 5, 20, 5⟩, .memory 0 0 0⟩,
         ⟨⟨23, 1, 20, 3⟩, .button "Exit" .quit false⟩ ], true) := by
  constructor
  · decide
  · decide

/-- Claim C4: the run state goes from Running to Stopped exactly once and the
transition is absorbing: quit sets running to false and is idempotent, the q
key and a keyboard interrupt both reach the same quit, no input event ever
turns running back on once it is false, a stopped application executes zero
further loop iterations, a q key quits within exactly one iteration, and
clicking the Exit button of the concrete application stops the loop after
that single iteration as well. -/
theorem C4_quit_transition (s : AppState) (e : InputEvent)
    (evs es : List InputEvent) :
    (quit s).running = false ∧
    quit (quit s) = quit s ∧
    step s (InputEvent.key ordQ) = quit s ∧
    step s InputEvent.interrupt = quit s ∧
    ((step s e).running && !s.running) = false ∧
    run (quit s) evs = (quit s, 0) ∧
    (run s (InputEvent.key ordQ :: es) = if s.running then (quit s, 1) else (s, 0)) ∧
    run (mkApp 24 80 "t") [InputEvent.mouse 30 2 BUTTON1_CLICKED, InputEvent.timeout] =
      ({ running := false, mouse_x := 30, mouse_y := 2, height := 24, width := 80,
         widgets :=
           [ ⟨⟨1, 1, 20, 3⟩, .clock "t"⟩,
             ⟨⟨1, 5, 20, 5⟩, .cpu 0⟩,
             ⟨⟨23, 5, 20, 5⟩, .memory 0 0 0⟩,
             ⟨⟨23, 1, 20, 3⟩, .button "Exit" .quit true⟩ ] }, 1) := by
  refine ⟨rfl, rfl, by simp [step], rfl, ?_, run_stopped (quit s) evs rfl, ?_, by decide⟩
  · cases hr : s.running with
    | false => simp [step_preserves_stopped s e hr]
    | true => simp [hr]
  · cases hr : s.running with
    | false => simp [run, hr]
    | true =>
      simp only [run, hr, if_pos]
      rw [show step s (InputEvent.key ordQ) = quit s from by simp [step]]
      rw [run_stopped (quit s) es rfl]

/-- Claim C5: for the CPU and Memory widgets the filled-cell count of the bar
is floor(innerWidth * percent / 100) where innerWidth = width - 6, hence it
is monotonic in percent, zero at percent 0 and innerWidth at percent 100. -/
theorem C5_bar_fill_monotone (w : Int) (p q : ℚ) (hw : 6 ≤ w) (hp0 : 0 ≤ p)
    (hp1 : p ≤ 100) (hq0 : 0 ≤ q) (hq1 : q ≤ 100) (hpq : p < q) :
    filledCells w p = ⌊((w : ℚ) - 6) * p / 100⌋ ∧
    filledCells w p ≤ filledCells w q ∧
    filledCells w 0 = 0 ∧
    filledCells w 100 = barWidth w := by
  refine ⟨filledCells_eq_floor w p hw hp0,
    filledCells_mono w p q hw hp0 (le_of_lt hpq), ?_, ?_⟩
  · rw [filledCells_eq_floor w 0 hw le_rfl]
    simp
  · rw [filledCells_eq_floor w 100 hw (by norm_num)]
    rw [mul_div_assoc]
    norm_num
    rfl

/-- Witness for C5 at the concrete widget width 20 and percents 50 and 75. -/
theorem C5_bar_fill_monotone_witness :
    filledCells 20 50 = ⌊(((20 : Int) : ℚ) - 6) * 50 / 100⌋ ∧
    filledCells 20 50 ≤ filledCells 20 75 ∧
    filledCells 20 0 = 0 ∧
    filledCells 20 100 = barWidth 20 :=
  C5_bar_fill_monotone 20 50 75 (by norm_num) (by norm_num) (by norm_num)
    (by norm_num) (by norm_num) (by norm_num)

/-- Claim C8 as stated is false at a concrete input: in the single iteration
that processes a mouse move to (5, 7), the phase order of the loop body is
render first and input second, and the frame rendered during that iteration
is the prior state with the mouse still at the origin, not the post-input
state with the mouse at (5, 7). -/
theorem C8_render_order_counterexample :
    runPhases (mkApp 24 80 "t") [InputEvent.mouse 5 7 0] =
      [Phase.render, Phase.input] ∧
    frames (mkApp 24 80 "t") [InputEvent.mouse 5 7 0] = [mkApp 24 80 "t"] ∧
    (mkApp 24 80 "t").mouse_x = 0 ∧
    (mkApp 24 80 "t").mouse_y = 0 ∧
    (step (mkApp 24 80 "t") (InputEvent.mouse 5 7 0)).mouse_x = 5 ∧
    frames (mkApp 24 80 "t") [InputEvent.mouse 5 7 0] ≠
      [step (mkApp 24 80 "t") (InputEvent.mouse 5 7 0)] := by decide

/-- Claim C8, amended: in every iteration of the foreground run loop the
Renderer runs exactly once, but before the input of that iteration is
processed, so the frame of iteration n reflects the inputs of iterations
strictly before n; the number of render phases equals the number of loop
iterations executed. -/
theorem C8_render_once_before_input (s : AppState) (e : InputEvent)
    (es : List InputEvent) (hs : s.running = true) :
    runPhases s (e :: es) =
      Phase.render :: Phase.input :: runPhases (step s e) es ∧
    frames s (e :: es) = s :: frames (step s e) es ∧
    (runPhases s (e :: es)).count Phase.render = (run s (e :: es)).2 := by
  exact ⟨by simp [runPhases, hs], by simp [frames, hs],
    runPhases_count_render s (e :: es)⟩

/-- Witness for the amended C8 at the concrete initial application state and a
timed-out poll. -/
theorem C8_render_once_before_input_witness :
    runPhases (mkApp 24 80 "t") (InputEvent.timeout :: []) =
      Phase.render :: Phase.input ::
        runPhases (step (mkApp 24 80 "t") InputEvent.timeout) [] ∧
    frames (mkApp 24 80 "t") (InputEvent.timeout :: []) =
      mkApp 24 80 "t" :: frames (step (mkApp 24 80 "t") InputEvent.timeout) [] ∧
    (runPhases (mkApp 24 80 "t") (InputEvent.timeout :: [])).count Phase.render =
      (run (mkApp 24 80 "t") (InputEvent.timeout :: [])).2 :=
  C8_render_once_before_input (mkApp 24 80 "t") InputEvent.timeout [] rfl

/-- Claim C9 is violated by the code: after the mouse was last seen at
(150, 80) on a 100 x 200 screen and the terminal is then shrunk to 24 x 80,
the stored cursor position is still (150, 80), and the unguarded cursor-marker
addstr of TuiApp.draw raises instead of being a no-op; draw is called outside
the try block of run, so the error is fatal. -/
theorem C9_cursor_marker_raises :
    (step (step (mkApp 100 200 "t") (InputEvent.mouse 150 80 0))
        (InputEvent.resize 24 80)).mouse_x = 150 ∧
    (step (step (mkApp 100 200 "t") (InputEvent.mouse 150 80 0))
        (InputEvent.resize 24 80)).mouse_y = 80 ∧
    drawCursorMarker (step (step (mkApp 100 200 "t") (InputEvent.mouse 150 80 0))
        (InputEvent.resize 24 80)) = Except.error () := by
  refine ⟨by decide, by decide, rfl⟩

/-- Claim C10: for every percent in [0, 100] the bar built by the CPU and
Memory draw methods has exactly innerWidth = width - 6 cells: the filled
count lies between 0 and width - 6, the empty count is its non-negative
complement, the two sum to width - 6, and the bar string has exactly
width - 6 characters. -/
theorem C10_bar_cells_invariant (w : Int) (p : ℚ) (hw : 6 ≤ w) (hp0 : 0 ≤ p)
    (hp1 : p ≤ 100) :
    0 ≤ filledCells w p ∧
    filledCells w p ≤ barWidth w ∧
    0 ≤ emptyCells w p ∧
    filledCells w p + emptyCells w p = barWidth w ∧
    (barString w p).length = (barWidth w).toNat := by
  have h0 := filledCells_nonneg w p hw hp0
  have h1 := filledCells_le w p hw hp0 hp1
  have hbw : barWidth w = w - 6 := rfl
  have hec : emptyCells w p = barWidth w - filledCells w p := rfl
  have hlen : (barString w p).length =
      (List.replicate (filledCells w p).toNat '█' ++
       List.replicate (emptyCells w p).toNat '░').length := rfl
  refine ⟨h0, by omega, by omega, by omega, ?_⟩
  rw [hlen, List.length_append, List.length_replicate, List.length_replicate]
  omega

/-- Witness for C10 at the concrete widget width 20 and percent 37. -/
theorem C10_bar_cells_invariant_witness :
    0 ≤ filledCells 20 37 ∧
    filledCells 20 37 ≤ barWidth 20 ∧
    0 ≤ emptyCells 20 37 ∧
    filledCells 20 37 + emptyCells 20 37 = barWidth 20 ∧
    (barString 20 37).length = (barWidth 20).toNat :=
  C10_bar_cells_invariant 20 37 (by norm_num) (by norm_num) (by norm_num)

end ZeroneDeck
